import Mathlib

/-!
Shallow embedding of `src/cross_account_codebuild_proxy.py`, the single
Lambda module of the cross-account CodeBuild proxy, together with proofs
of the specified behavior.

The Python module is modelled faithfully:
 * the Lambda event is a Python dict, modelled as an association list;
   a subscript `event[key]` on a missing key raises `KeyError`;
 * `not value` (Python truthiness) is modelled by `Value.falsy`;
 * the external collaborators (STS `assume_role`, CodeBuild `start_build`
   and `batch_get_builds`) are an explicit `World` of oracle functions,
   and every outbound call is recorded in an ordered trace;
 * each handler returns the raised exception or the returned event,
   together with the state of the (mutated-in-place) event object and
   the trace of outbound calls.
-/

namespace CodeBuildProxy

/-- One CodeBuild environment-variable override, the
`{"name": ..., "value": ..., "type": ...}` dict shape the CodeBuild API
takes; the proxy never inspects these, it only passes the list through. -/
structure EnvVar where
  name : String
  value : String
  type : String
  deriving DecidableEq

/-- A Python value as it occurs in the Lambda event mapping: a string,
a list of environment-variable overrides (the one list shape the proxy
handles), or `None`. -/
inductive Value where
  | str (s : String)
  | vlist (l : List EnvVar)
  | null
  deriving DecidableEq

/-- Python truthiness: `not v` holds exactly for the empty string, the
empty list and `None` among the shapes above. -/
def Value.falsy : Value → Bool
  | .str s => s == ""
  | .vlist l => l.isEmpty
  | .null => true

/-- A string wrapped in single quotes, as Python `repr` renders it. -/
def pyQuote (s : String) : String :=
  (Char.ofNat 39).toString ++ s ++ (Char.ofNat 39).toString

/-- Python `repr` of an override dict. -/
def EnvVar.pyRepr (v : EnvVar) : String :=
  "\x7b" ++ pyQuote "name" ++ ": " ++ pyQuote v.name ++ ", "
    ++ pyQuote "value" ++ ": " ++ pyQuote v.value ++ ", "
    ++ pyQuote "type" ++ ": " ++ pyQuote v.type ++ "\x7d"

/-- Python `str` of a value, as interpolated by an f-string: a string
renders as itself, `None` and lists as their `repr`. -/
def Value.pyStr : Value → String
  | .str s => s
  | .null => "None"
  | .vlist l => "[" ++ String.intercalate ", " (l.map EnvVar.pyRepr) ++ "]"

/-- The Lambda event: a Python dict modelled as an association list,
the first binding of a key giving its value. -/
abbrev Event := List (String × Value)

/-- Python `event[key]`: `some` the bound value, or `none` where the
subscript would raise `KeyError`. -/
def getKey : Event → String → Option Value
  | [], _ => none
  | (k, v) :: rest, key => if k = key then some v else getKey rest key

/-- Python `event[key] = v` and `event.update({key: v})`: replace the
value of an existing key in place, otherwise append the new binding. -/
def setKey : Event → String → Value → Event
  | [], key, v => [(key, v)]
  | (k, w) :: rest, key, v =>
      if k = key then (key, v) :: rest else (k, w) :: setKey rest key v

/-- The credential triple inside an STS `assume_role` response. -/
structure Credentials where
  accessKeyId : String
  secretAccessKey : String
  sessionToken : String
  deriving DecidableEq

/-- A `boto3.Session` built from assumed-role credentials. -/
structure Session where
  aws_access_key_id : String
  aws_secret_access_key : String
  aws_session_token : String
  deriving DecidableEq

/-- `session.client("codebuild", region_name=...)`: a CodeBuild client
scoped to the session credentials and the requested region. -/
structure Client where
  session : Session
  region_name : Value
  deriving DecidableEq

/-- The `build` object of a `start_build` response; the code reads its
`id` field. -/
structure BuildInfo where
  id : String
  deriving DecidableEq

/-- A `start_build` response. -/
structure StartBuildResponse where
  build : BuildInfo
  deriving DecidableEq

/-- One element of the `builds` list of a `batch_get_builds` response;
the code reads its `buildStatus` field. -/
structure Build where
  buildStatus : String
  deriving DecidableEq

/-- A `batch_get_builds` response. -/
structure BatchGetBuildsResponse where
  builds : List Build
  deriving DecidableEq

/-- The external collaborators (the STS identity service and the
CodeBuild service). Each call either returns its response or fails with
a service exception; the code catches every exception shape alike, so
the failure carries no data. -/
structure World where
  assumeRole : Value → Except Unit Credentials
  startBuild : Client → Value → Value → Except Unit StartBuildResponse
  batchGetBuilds : Client → List Value → Except Unit BatchGetBuildsResponse

/-- One outbound call to an external collaborator, recorded in order. -/
inductive Call where
  | assumeRole (roleArn : Value)
  | startBuild (client : Client) (projectName : Value) (envVars : Value)
  | batchGetBuilds (client : Client) (ids : List Value)
  deriving DecidableEq

/-- A raised Python exception, by shape. -/
inductive Err where
  | keyError (key : String)
  | exn (msg : String)
  | runtimeError (msg : String)
  | indexError
  deriving DecidableEq

/-- `True` for the exception shapes a handler raises while validating the
event (a `KeyError` from the subscript of a missing field, or the
`Exception(...)` raised for an empty field), `False` for the
`RuntimeError` and `IndexError` shapes raised around delegated calls. -/
def Err.fromValidation : Err → Bool
  | .keyError _ => true
  | .exn _ => true
  | .runtimeError _ => false
  | .indexError => false

/-- The session object `assume_role` builds out of the credentials of a
successful STS response. -/
def sessionOf (c : Credentials) : Session :=
  ⟨c.accessKeyId, c.secretAccessKey, c.sessionToken⟩

/-- `boto3_session.client("codebuild", region_name=region)`. -/
def mkClient (s : Session) (region : Value) : Client :=
  ⟨s, region⟩

/-- `assume_role(role_arn)`: call STS; on failure re-raise as
`RuntimeError(f"Could not assume role: {role_arn}")`; on success return
the `boto3.Session` built from the response credentials. The second
component is the trace of outbound calls. -/
def assume_role (w : World) (role_arn : Value) : Except Err Session × List Call :=
  match w.assumeRole role_arn with
  | .error _ =>
      (.error (.runtimeError ("Could not assume role: " ++ role_arn.pyStr)),
       [.assumeRole role_arn])
  | .ok creds => (.ok (sessionOf creds), [.assumeRole role_arn])

/-- The dict `{"codeBuildJobId": ...}` returned by
`start_codebuild_project`. -/
structure StartResult where
  codeBuildJobId : String
  deriving DecidableEq

/-- `start_codebuild_project(client, project, envvars)`: issue
`start_build`; on failure re-raise as
`RuntimeError(f"Could not start CodeBuild Project: {project}")`; on
success return `{"codeBuildJobId": response["build"]["id"]}`. -/
def start_codebuild_project (w : World) (client : Client)
    (codebuild_project : Value) (codebuild_envvars : Value) :
    Except Err StartResult × List Call :=
  match w.startBuild client codebuild_project codebuild_envvars with
  | .error _ =>
      (.error (.runtimeError ("Could not start CodeBuild Project: " ++ codebuild_project.pyStr)),
       [.startBuild client codebuild_project codebuild_envvars])
  | .ok resp =>
      (.ok ⟨resp.build.id⟩, [.startBuild client codebuild_project codebuild_envvars])

/-- `check_codebuild_status(client, job_id)`: issue
`batch_get_builds(ids=[job_id])`; on failure re-raise as
`RuntimeError(f"Exception checking job status: {job_id}")`; on success
read `response["builds"][0]["buildStatus"]` — the subscript `[0]` raises
`IndexError` when the `builds` list is empty (that access is outside the
try block, so the `IndexError` propagates unwrapped). -/
def check_codebuild_status (w : World) (client : Client)
    (codebuild_job_id : Value) : Except Err String × List Call :=
  match w.batchGetBuilds client [codebuild_job_id] with
  | .error _ =>
      (.error (.runtimeError ("Exception checking job status: " ++ codebuild_job_id.pyStr)),
       [.batchGetBuilds client [codebuild_job_id]])
  | .ok resp =>
      match resp.builds with
      | [] => (.error .indexError, [.batchGetBuilds client [codebuild_job_id]])
      | b :: _ => (.ok b.buildStatus, [.batchGetBuilds client [codebuild_job_id]])

/-- `start_build_handler(event)`. Components of the result: the raised
exception or returned event; the state of the event object itself after
the call (Python mutates it in place); the trace of outbound calls.
Each Python subscript of the event after the in-place
`event["environmentVariables"] = []` write is modelled as a fresh
lookup on the mutated dict, exactly as the source re-subscripts. -/
def start_build_handler (w : World) (event : Event) :
    Except Err Event × Event × List Call :=
  match getKey event "roleArn" with
  | none => (.error (.keyError "roleArn"), event, [])
  | some roleArn =>
    if roleArn.falsy then
      (.error (.exn "Event did not include the roleArn"), event, [])
    else match getKey event "codeBuildProject" with
    | none => (.error (.keyError "codeBuildProject"), event, [])
    | some project =>
      if project.falsy then
        (.error (.exn "Event did not include the target CodeBuild Project"), event, [])
      else match getKey event "region" with
      | none => (.error (.keyError "region"), event, [])
      | some region =>
        if region.falsy then
          (.error (.exn "Event did not include the region for the target CodeBuild Project"),
           event, [])
        else match getKey event "environmentVariables" with
        | none => (.error (.keyError "environmentVariables"), event, [])
        | some envv =>
          let event1 :=
            if envv.falsy then setKey event "environmentVariables" (.vlist []) else event
          match getKey event1 "roleArn" with
          | none => (.error (.keyError "roleArn"), event1, [])
          | some roleArn1 =>
            match assume_role w roleArn1 with
            | (.error e, calls) => (.error e, event1, calls)
            | (.ok session, calls1) =>
              match getKey event1 "region" with
              | none => (.error (.keyError "region"), event1, calls1)
              | some region1 =>
                let client := mkClient session region1
                match getKey event1 "codeBuildProject" with
                | none => (.error (.keyError "codeBuildProject"), event1, calls1)
                | some project1 =>
                  match getKey event1 "environmentVariables" with
                  | none => (.error (.keyError "environmentVariables"), event1, calls1)
                  | some envv1 =>
                    match start_codebuild_project w client project1 envv1 with
                    | (.error e, calls2) => (.error e, event1, calls1 ++ calls2)
                    | (.ok res, calls2) =>
                      let event2 := setKey event1 "CodeBuildJobStatus" (.str "IN_PROGRESS")
                      let event3 := setKey event2 "CodeBuildJobId" (.str res.codeBuildJobId)
                      (.ok event3, event3, calls1 ++ calls2)

/-- `check_build_status_handler(event)`. Result components as in
`start_build_handler`. The event is not mutated before the final
updates, so the re-subscripts of `roleArn`, `jobId` and `region` at the
call sites denote the already-matched values; the subscript
`event["jobId"]` inside the final `update` happens after
`CodeBuildJobStatus` was written and is modelled as a fresh lookup. -/
def check_build_status_handler (w : World) (event : Event) :
    Except Err Event × Event × List Call :=
  match getKey event "roleArn" with
  | none => (.error (.keyError "roleArn"), event, [])
  | some roleArn =>
    if roleArn.falsy then
      (.error (.exn "Event did not include the roleArn"), event, [])
    else match getKey event "jobId" with
    | none => (.error (.keyError "jobId"), event, [])
    | some jobId =>
      if jobId.falsy then
        (.error (.exn "Event did not include the CodeBuild ID to check"), event, [])
      else match getKey event "region" with
      | none => (.error (.keyError "region"), event, [])
      | some region =>
        if region.falsy then
          (.error (.exn "Event did not include the region for the target CodeBuild ID"),
           event, [])
        else match assume_role w roleArn with
        | (.error e, calls) => (.error e, event, calls)
        | (.ok session, calls1) =>
          let client := mkClient session region
          match check_codebuild_status w client jobId with
          | (.error e, calls2) => (.error e, event, calls1 ++ calls2)
          | (.ok status, calls2) =>
            let event1 := setKey event "CodeBuildJobStatus" (.str status)
            match getKey event1 "jobId" with
            | none => (.error (.keyError "jobId"), event1, calls1 ++ calls2)
            | some jv =>
              let event2 := setKey event1 "CodeBuildJobId" jv
              (.ok event2, event2, calls1 ++ calls2)

/-- `lambda_handler(event, context)`: dispatch on
`event["invocationType"]`; any other value falls off the end of the
function, which in Python returns `None`. -/
def lambda_handler (w : World) (event : Event) :
    Except Err (Option Event) × Event × List Call :=
  match getKey event "invocationType" with
  | none => (.error (.keyError "invocationType"), event, [])
  | some inv =>
    if inv = .str "START_BUILD" then
      match start_build_handler w event with
      | (.ok e2, fe, calls) => (.ok (some e2), fe, calls)
      | (.error err, fe, calls) => (.error err, fe, calls)
    else if inv = .str "CHECK_STATUS" then
      match check_build_status_handler w event with
      | (.ok e2, fe, calls) => (.ok (some e2), fe, calls)
      | (.error err, fe, calls) => (.error err, fe, calls)
    else (.ok none, event, [])

/-! ### Dictionary lemmas -/

/-- Reading back the key just written. -/
theorem getKey_setKey_self (e : Event) (k : String) (v : Value) :
    getKey (setKey e k v) k = some v := by
  induction e with
  | nil => simp [setKey, getKey]
  | cons p rest ih =>
    obtain ⟨k0, v0⟩ := p
    by_cases h : k0 = k
    · simp [setKey, getKey, h]
    · simp [setKey, getKey, h, ih]

/-- Writing one key leaves every other key unchanged. -/
theorem getKey_setKey_ne (e : Event) (key k : String) (v : Value) (h : k ≠ key) :
    getKey (setKey e key v) k = getKey e k := by
  induction e with
  | nil => simp [setKey, getKey, Ne.symm h]
  | cons p rest ih =>
    obtain ⟨k0, v0⟩ := p
    by_cases h0 : k0 = key
    · subst h0; simp [setKey, getKey, Ne.symm h]
    · simp [setKey, getKey, h0, ih]

/-! ### Characterizations of the successful paths -/

/-- The event object after the `environmentVariables` normalization at
the top of `start_build_handler`. -/
def normalizeEnv (e : Event) (envv : Value) : Event :=
  if envv.falsy then setKey e "environmentVariables" (Value.vlist []) else e

/-- The environment-variable override list actually handed to
`start_build`: the original value, or `[]` when it was falsy. -/
def envPassed (envv : Value) : Value :=
  if envv.falsy then Value.vlist [] else envv

/-- `start_build_handler` on a fully valid event with a succeeding
credential broker and build service: the full result, final event state
and call trace. -/
theorem start_build_handler_ok (w : World) (e : Event)
    (roleArn project region envv : Value)
    (creds : Credentials) (resp : StartBuildResponse)
    (hR : getKey e "roleArn" = some roleArn) (hRt : roleArn.falsy = false)
    (hP : getKey e "codeBuildProject" = some project) (hPt : project.falsy = false)
    (hG : getKey e "region" = some region) (hGt : region.falsy = false)
    (hE : getKey e "environmentVariables" = some envv)
    (hA : w.assumeRole roleArn = .ok creds)
    (hS : w.startBuild (mkClient (sessionOf creds) region) project (envPassed envv) = .ok resp) :
    start_build_handler w e =
      (.ok (setKey (setKey (normalizeEnv e envv) "CodeBuildJobStatus" (Value.str "IN_PROGRESS"))
              "CodeBuildJobId" (Value.str resp.build.id)),
       setKey (setKey (normalizeEnv e envv) "CodeBuildJobStatus" (Value.str "IN_PROGRESS"))
              "CodeBuildJobId" (Value.str resp.build.id),
       [Call.assumeRole roleArn,
        Call.startBuild (mkClient (sessionOf creds) region) project (envPassed envv)]) := by
  have gR : getKey (setKey e "environmentVariables" (Value.vlist [])) "roleArn"
      = getKey e "roleArn" := getKey_setKey_ne _ _ _ _ (by decide)
  have gP : getKey (setKey e "environmentVariables" (Value.vlist [])) "codeBuildProject"
      = getKey e "codeBuildProject" := getKey_setKey_ne _ _ _ _ (by decide)
  have gG : getKey (setKey e "environmentVariables" (Value.vlist [])) "region"
      = getKey e "region" := getKey_setKey_ne _ _ _ _ (by decide)
  have gE : getKey (setKey e "environmentVariables" (Value.vlist [])) "environmentVariables"
      = some (Value.vlist []) := getKey_setKey_self _ _ _
  cases hf : envv.falsy with
  | true =>
      simp only [normalizeEnv, envPassed, hf, if_true] at hS ⊢
      simp [start_build_handler, hR, hRt, hP, hPt, hG, hGt, hE, hf,
        gR, gP, gG, gE, assume_role, hA, start_codebuild_project, hS]
  | false =>
      simp only [normalizeEnv, envPassed, hf, Bool.false_eq_true, if_false] at hS ⊢
      simp [start_build_handler, hR, hRt, hP, hPt, hG, hGt, hE, hf,
        assume_role, hA, start_codebuild_project, hS]

/-- `check_build_status_handler` on a fully valid event with a
succeeding credential broker and a status service reporting at least one
build: the full result, final event state and call trace. -/
theorem check_build_status_handler_ok (w : World) (e : Event)
    (roleArn jobId region : Value)
    (creds : Credentials) (resp : BatchGetBuildsResponse) (b : Build) (bs : List Build)
    (hR : getKey e "roleArn" = some roleArn) (hRt : roleArn.falsy = false)
    (hJ : getKey e "jobId" = some jobId) (hJt : jobId.falsy = false)
    (hG : getKey e "region" = some region) (hGt : region.falsy = false)
    (hA : w.assumeRole roleArn = .ok creds)
    (hB : w.batchGetBuilds (mkClient (sessionOf creds) region) [jobId] = .ok resp)
    (hbs : resp.builds = b :: bs) :
    check_build_status_handler w e =
      (.ok (setKey (setKey e "CodeBuildJobStatus" (Value.str b.buildStatus)) "CodeBuildJobId" jobId),
       setKey (setKey e "CodeBuildJobStatus" (Value.str b.buildStatus)) "CodeBuildJobId" jobId,
       [Call.assumeRole roleArn,
        Call.batchGetBuilds (mkClient (sessionOf creds) region) [jobId]]) := by
  have gJ : getKey (setKey e "CodeBuildJobStatus" (Value.str b.buildStatus)) "jobId"
      = getKey e "jobId" := getKey_setKey_ne _ _ _ _ (by decide)
  simp [check_build_status_handler, hR, hRt, hJ, hJt, hG, hGt,
    assume_role, hA, check_codebuild_status, hB, hbs, gJ]

/-! ### Validation phase -/

/-- The field `k` is missing from the event, or bound to a falsy value. -/
def missingOrFalsy (e : Event) (k : String) : Prop :=
  getKey e k = none ∨ ∃ v, getKey e k = some v ∧ v.falsy = true

/-- `start_build_handler` either stops during validation — with a
validation-shaped error, an empty call trace and the event untouched —
or the event carries all four fields with the three required ones
truthy. -/
theorem start_build_handler_validate (w : World) (e : Event) :
    (∃ err, (start_build_handler w e).1 = .error err ∧ err.fromValidation = true ∧
      (start_build_handler w e).2.2 = [] ∧ (start_build_handler w e).2.1 = e) ∨
    (∃ roleArn project region envv,
      getKey e "roleArn" = some roleArn ∧ roleArn.falsy = false ∧
      getKey e "codeBuildProject" = some project ∧ project.falsy = false ∧
      getKey e "region" = some region ∧ region.falsy = false ∧
      getKey e "environmentVariables" = some envv) := by
  rcases h1 : getKey e "roleArn" with _ | v1
  · have hq : start_build_handler w e = (.error (.keyError "roleArn"), e, []) := by
      simp [start_build_handler, h1]
    rw [hq]; exact Or.inl ⟨_, rfl, rfl, rfl, rfl⟩
  · cases hf1 : v1.falsy with
    | true =>
      have hq : start_build_handler w e
          = (.error (.exn "Event did not include the roleArn"), e, []) := by
        simp [start_build_handler, h1, hf1]
      rw [hq]; exact Or.inl ⟨_, rfl, rfl, rfl, rfl⟩
    | false =>
      rcases h2 : getKey e "codeBuildProject" with _ | v2
      · have hq : start_build_handler w e = (.error (.keyError "codeBuildProject"), e, []) := by
          simp [start_build_handler, h1, hf1, h2]
        rw [hq]; exact Or.inl ⟨_, rfl, rfl, rfl, rfl⟩
      · cases hf2 : v2.falsy with
        | true =>
          have hq : start_build_handler w e
              = (.error (.exn "Event did not include the target CodeBuild Project"), e, []) := by
            simp [start_build_handler, h1, hf1, h2, hf2]
          rw [hq]; exact Or.inl ⟨_, rfl, rfl, rfl, rfl⟩
        | false =>
          rcases h3 : getKey e "region" with _ | v3
          · have hq : start_build_handler w e = (.error (.keyError "region"), e, []) := by
              simp [start_build_handler, h1, hf1, h2, hf2, h3]
            rw [hq]; exact Or.inl ⟨_, rfl, rfl, rfl, rfl⟩
          · cases hf3 : v3.falsy with
            | true =>
              have hq : start_build_handler w e
                  = (.error (.exn "Event did not include the region for the target CodeBuild Project"),
                     e, []) := by
                simp [start_build_handler, h1, hf1, h2, hf2, h3, hf3]
              rw [hq]; exact Or.inl ⟨_, rfl, rfl, rfl, rfl⟩
            | false =>
              rcases h4 : getKey e "environmentVariables" with _ | v4
              · have hq : start_build_handler w e
                    = (.error (.keyError "environmentVariables"), e, []) := by
                  simp [start_build_handler, h1, hf1, h2, hf2, h3, hf3, h4]
                rw [hq]; exact Or.inl ⟨_, rfl, rfl, rfl, rfl⟩
              · exact Or.inr ⟨v1, v2, v3, v4, rfl, hf1, rfl, hf2, rfl, hf3, rfl⟩

/-- Counterpart of `start_build_handler_validate` for
`check_build_status_handler`. -/
theorem check_build_status_handler_validate (w : World) (e : Event) :
    (∃ err, (check_build_status_handler w e).1 = .error err ∧ err.fromValidation = true ∧
      (check_build_status_handler w e).2.2 = [] ∧ (check_build_status_handler w e).2.1 = e) ∨
    (∃ roleArn jobId region,
      getKey e "roleArn" = some roleArn ∧ roleArn.falsy = false ∧
      getKey e "jobId" = some jobId ∧ jobId.falsy = false ∧
      getKey e "region" = some region ∧ region.falsy = false) := by
  rcases h1 : getKey e "roleArn" with _ | v1
  · have hq : check_build_status_handler w e = (.error (.keyError "roleArn"), e, []) := by
      simp [check_build_status_handler, h1]
    rw [hq]; exact Or.inl ⟨_, rfl, rfl, rfl, rfl⟩
  · cases hf1 : v1.falsy with
    | true =>
      have hq : check_build_status_handler w e
          = (.error (.exn "Event did not include the roleArn"), e, []) := by
        simp [check_build_status_handler, h1, hf1]
      rw [hq]; exact Or.inl ⟨_, rfl, rfl, rfl, rfl⟩
    | false =>
      rcases h2 : getKey e "jobId" with _ | v2
      · have hq : check_build_status_handler w e = (.error (.keyError "jobId"), e, []) := by
          simp [check_build_status_handler, h1, hf1, h2]
        rw [hq]; exact Or.inl ⟨_, rfl, rfl, rfl, rfl⟩
      · cases hf2 : v2.falsy with
        | true =>
          have hq : check_build_status_handler w e
              = (.error (.exn "Event did not include the CodeBuild ID to check"), e, []) := by
            simp [check_build_status_handler, h1, hf1, h2, hf2]
          rw [hq]; exact Or.inl ⟨_, rfl, rfl, rfl, rfl⟩
        | false =>
          rcases h3 : getKey e "region" with _ | v3
          · have hq : check_build_status_handler w e = (.error (.keyError "region"), e, []) := by
              simp [check_build_status_handler, h1, hf1, h2, hf2, h3]
            rw [hq]; exact Or.inl ⟨_, rfl, rfl, rfl, rfl⟩
          · cases hf3 : v3.falsy with
            | true =>
              have hq : check_build_status_handler w e
                  = (.error (.exn "Event did not include the region for the target CodeBuild ID"),
                     e, []) := by
                simp [check_build_status_handler, h1, hf1, h2, hf2, h3, hf3]
              rw [hq]; exact Or.inl ⟨_, rfl, rfl, rfl, rfl⟩
            | false =>
              exact Or.inr ⟨v1, v2, v3, rfl, hf1, rfl, hf2, rfl, hf3⟩

/-! ### Failure of the credential exchange -/

/-- `start_build_handler` past validation with a failing credential
broker: the STS failure is re-raised as the role-naming `RuntimeError`,
and the only outbound call is the role assumption. -/
theorem start_build_handler_assume_fail (w : World) (e : Event)
    (roleArn project region envv : Value)
    (hR : getKey e "roleArn" = some roleArn) (hRt : roleArn.falsy = false)
    (hP : getKey e "codeBuildProject" = some project) (hPt : project.falsy = false)
    (hG : getKey e "region" = some region) (hGt : region.falsy = false)
    (hE : getKey e "environmentVariables" = some envv)
    (hA : w.assumeRole roleArn = .error ()) :
    start_build_handler w e =
      (.error (.runtimeError ("Could not assume role: " ++ roleArn.pyStr)),
       normalizeEnv e envv, [Call.assumeRole roleArn]) := by
  have gR : getKey (setKey e "environmentVariables" (Value.vlist [])) "roleArn"
      = getKey e "roleArn" := getKey_setKey_ne _ _ _ _ (by decide)
  cases hf : envv.falsy with
  | true =>
      simp only [normalizeEnv, hf, if_true]
      simp [start_build_handler, hR, hRt, hP, hPt, hG, hGt, hE, hf, gR, assume_role, hA]
  | false =>
      simp only [normalizeEnv, hf, Bool.false_eq_true, if_false]
      simp [start_build_handler, hR, hRt, hP, hPt, hG, hGt, hE, hf, assume_role, hA]

/-- Counterpart of `start_build_handler_assume_fail` for
`check_build_status_handler`. -/
theorem check_build_status_handler_assume_fail (w : World) (e : Event)
    (roleArn jobId region : Value)
    (hR : getKey e "roleArn" = some roleArn) (hRt : roleArn.falsy = false)
    (hJ : getKey e "jobId" = some jobId) (hJt : jobId.falsy = false)
    (hG : getKey e "region" = some region) (hGt : region.falsy = false)
    (hA : w.assumeRole roleArn = .error ()) :
    check_build_status_handler w e =
      (.error (.runtimeError ("Could not assume role: " ++ roleArn.pyStr)),
       e, [Call.assumeRole roleArn]) := by
  simp [check_build_status_handler, hR, hRt, hJ, hJt, hG, hGt, assume_role, hA]

/-! ### The event object on failing paths -/

/-- `start_build_handler` past validation and credential exchange with
a failing build service: the failure is re-raised as the project-naming
`RuntimeError` after both outbound calls were made. -/
theorem start_build_handler_start_fail (w : World) (e : Event)
    (roleArn project region envv : Value) (creds : Credentials)
    (hR : getKey e "roleArn" = some roleArn) (hRt : roleArn.falsy = false)
    (hP : getKey e "codeBuildProject" = some project) (hPt : project.falsy = false)
    (hG : getKey e "region" = some region) (hGt : region.falsy = false)
    (hE : getKey e "environmentVariables" = some envv)
    (hA : w.assumeRole roleArn = .ok creds)
    (hS : w.startBuild (mkClient (sessionOf creds) region) project (envPassed envv) = .error ()) :
    start_build_handler w e =
      (.error (.runtimeError ("Could not start CodeBuild Project: " ++ project.pyStr)),
       normalizeEnv e envv,
       [Call.assumeRole roleArn,
        Call.startBuild (mkClient (sessionOf creds) region) project (envPassed envv)]) := by
  have gR : getKey (setKey e "environmentVariables" (Value.vlist [])) "roleArn"
      = getKey e "roleArn" := getKey_setKey_ne _ _ _ _ (by decide)
  have gP : getKey (setKey e "environmentVariables" (Value.vlist [])) "codeBuildProject"
      = getKey e "codeBuildProject" := getKey_setKey_ne _ _ _ _ (by decide)
  have gG : getKey (setKey e "environmentVariables" (Value.vlist [])) "region"
      = getKey e "region" := getKey_setKey_ne _ _ _ _ (by decide)
  have gE : getKey (setKey e "environmentVariables" (Value.vlist [])) "environmentVariables"
      = some (Value.vlist []) := getKey_setKey_self _ _ _
  cases hf : envv.falsy with
  | true =>
      simp only [normalizeEnv, envPassed, hf, if_true] at hS ⊢
      simp [start_build_handler, hR, hRt, hP, hPt, hG, hGt, hE, hf,
        gR, gP, gG, gE, assume_role, hA, start_codebuild_project, hS]
  | false =>
      simp only [normalizeEnv, envPassed, hf, Bool.false_eq_true, if_false] at hS ⊢
      simp [start_build_handler, hR, hRt, hP, hPt, hG, hGt, hE, hf,
        assume_role, hA, start_codebuild_project, hS]

/-- On every failing path of `start_build_handler`, the event object is
untouched, or only its `environmentVariables` value was replaced by the
empty list. -/
theorem start_build_handler_error_event (w : World) (e : Event) (err : Err)
    (h : (start_build_handler w e).1 = .error err) :
    (start_build_handler w e).2.1 = e ∨
    (start_build_handler w e).2.1 = setKey e "environmentVariables" (Value.vlist []) := by
  rcases start_build_handler_validate w e with ⟨err2, _, _, _, hev⟩ | hok
  · exact Or.inl hev
  · obtain ⟨roleArn, project, region, envv, hR, hRt, hP, hPt, hG, hGt, hE⟩ := hok
    have hnorm : normalizeEnv e envv = e ∨
        normalizeEnv e envv = setKey e "environmentVariables" (Value.vlist []) := by
      unfold normalizeEnv
      cases envv.falsy <;> simp
    rcases hA : w.assumeRole roleArn with _ | creds
    · rw [start_build_handler_assume_fail w e roleArn project region envv
        hR hRt hP hPt hG hGt hE hA]
      exact hnorm
    · rcases hS : w.startBuild (mkClient (sessionOf creds) region) project (envPassed envv)
        with _ | resp
      · rw [start_build_handler_start_fail w e roleArn project region envv creds
          hR hRt hP hPt hG hGt hE hA hS]
        exact hnorm
      · rw [start_build_handler_ok w e roleArn project region envv creds resp
          hR hRt hP hPt hG hGt hE hA hS] at h
        exact absurd h (by simp)

/-- On every failing path of `check_build_status_handler` that is
actually reachable, the event object is untouched. -/
theorem check_build_status_handler_error_event (w : World) (e : Event) (err : Err)
    (h : (check_build_status_handler w e).1 = .error err) :
    (check_build_status_handler w e).2.1 = e := by
  rcases check_build_status_handler_validate w e with ⟨err2, _, _, _, hev⟩ | hok
  · exact hev
  · obtain ⟨roleArn, jobId, region, hR, hRt, hJ, hJt, hG, hGt⟩ := hok
    rcases hA : w.assumeRole roleArn with _ | creds
    · rw [check_build_status_handler_assume_fail w e roleArn jobId region hR hRt hJ hJt hG hGt hA]
    · rcases hB : w.batchGetBuilds (mkClient (sessionOf creds) region) [jobId] with _ | resp
      · simp [check_build_status_handler, hR, hRt, hJ, hJt, hG, hGt,
          assume_role, hA, check_codebuild_status, hB]
      · rcases hbs : resp.builds with _ | ⟨b, bs⟩
        · simp [check_build_status_handler, hR, hRt, hJ, hJt, hG, hGt,
            assume_role, hA, check_codebuild_status, hB, hbs]
        · rw [check_build_status_handler_ok w e roleArn jobId region creds resp b bs
            hR hRt hJ hJt hG hGt hA hB hbs] at h
          exact absurd h (by simp)

/-! ### Concrete fixtures -/

/-- A world in which every collaborator succeeds with fixed responses. -/
def okWorld : World where
  assumeRole := fun _ => .ok ⟨"ASIAEXAMPLEKEY", "exampleSecretKey", "exampleSessionToken"⟩
  startBuild := fun _ _ _ => .ok ⟨⟨"proj:1a2b3c4d"⟩⟩
  batchGetBuilds := fun _ _ => .ok ⟨[⟨"SUCCEEDED"⟩]⟩

/-- A world in which the credential exchange fails and everything else
would succeed. -/
def stsDownWorld : World where
  assumeRole := fun _ => .error ()
  startBuild := fun _ _ _ => .ok ⟨⟨"proj:1a2b3c4d"⟩⟩
  batchGetBuilds := fun _ _ => .ok ⟨[⟨"SUCCEEDED"⟩]⟩

/-- A world in which `batch_get_builds` succeeds but reports no builds
for any id. -/
def emptyBuildsWorld : World where
  assumeRole := fun _ => .ok ⟨"ASIAEXAMPLEKEY", "exampleSecretKey", "exampleSessionToken"⟩
  startBuild := fun _ _ _ => .ok ⟨⟨"proj:1a2b3c4d"⟩⟩
  batchGetBuilds := fun _ _ => .ok ⟨[]⟩

/-- The credentials `okWorld` and `emptyBuildsWorld` hand out. -/
def okCreds : Credentials :=
  ⟨"ASIAEXAMPLEKEY", "exampleSecretKey", "exampleSessionToken"⟩

/-- A START_BUILD event whose three required fields are present and
non-empty but that lacks the `environmentVariables` key entirely. -/
def evC1 : Event :=
  [("invocationType", .str "START_BUILD"),
   ("roleArn", .str "arn:aws:iam::111111111111:role/x"),
   ("region", .str "us-east-1"),
   ("codeBuildProject", .str "proj")]

/-- A fully populated START_BUILD event (with override list present). -/
def evC1w : Event :=
  [("invocationType", .str "START_BUILD"),
   ("roleArn", .str "arn:aws:iam::111111111111:role/x"),
   ("region", .str "us-east-1"),
   ("codeBuildProject", .str "proj"),
   ("environmentVariables", .vlist [⟨"STAGE", "prod", "PLAINTEXT"⟩])]

/-- A fully populated CHECK_STATUS event. -/
def evC2w : Event :=
  [("invocationType", .str "CHECK_STATUS"),
   ("roleArn", .str "arn:aws:iam::111111111111:role/x"),
   ("region", .str "us-east-1"),
   ("jobId", .str "proj:1a2b3c4d")]

/-- An event carrying no `roleArn` at all. -/
def evC3w : Event :=
  [("invocationType", .str "START_BUILD")]

/-! ### C1 -/

/-- C1, counterexample: the claim quantifies over events with `roleArn`,
`codeBuildProject` and `region` present and non-empty. `evC1` is such an
event and `okWorld` is a succeeding credential broker and build service,
yet `start_build_handler` raises a `KeyError` — the subscript
`event["environmentVariables"]` on line 122 — instead of returning a
request tagged IN_PROGRESS. -/
theorem C1_counterexample :
    getKey evC1 "roleArn" = some (.str "arn:aws:iam::111111111111:role/x") ∧
    getKey evC1 "codeBuildProject" = some (.str "proj") ∧
    getKey evC1 "region" = some (.str "us-east-1") ∧
    (∀ arn, okWorld.assumeRole arn = .ok okCreds) ∧
    (∀ c p v, okWorld.startBuild c p v = .ok ⟨⟨"proj:1a2b3c4d"⟩⟩) ∧
    start_build_handler okWorld evC1 =
      (.error (.keyError "environmentVariables"), evC1, []) :=
  ⟨rfl, rfl, rfl, fun _ => rfl, fun _ _ _ => rfl, rfl⟩

/-- C1, amended: for every START_BUILD event whose `roleArn`,
`codeBuildProject` and `region` are present and non-empty AND that
contains the `environmentVariables` key, if the credential broker and
the build service succeed then the returned request carries
`CodeBuildJobStatus = "IN_PROGRESS"` and `CodeBuildJobId` equal to the
build id returned by the start-build call. -/
theorem C1_start_build_result (w : World) (e : Event)
    (roleArn project region envv : Value)
    (creds : Credentials) (resp : StartBuildResponse)
    (hR : getKey e "roleArn" = some roleArn) (hRt : roleArn.falsy = false)
    (hP : getKey e "codeBuildProject" = some project) (hPt : project.falsy = false)
    (hG : getKey e "region" = some region) (hGt : region.falsy = false)
    (hE : getKey e "environmentVariables" = some envv)
    (hA : w.assumeRole roleArn = .ok creds)
    (hS : w.startBuild (mkClient (sessionOf creds) region) project (envPassed envv) = .ok resp) :
    ∃ out, (start_build_handler w e).1 = .ok out ∧
      getKey out "CodeBuildJobStatus" = some (.str "IN_PROGRESS") ∧
      getKey out "CodeBuildJobId" = some (.str resp.build.id) := by
  rw [start_build_handler_ok w e roleArn project region envv creds resp
    hR hRt hP hPt hG hGt hE hA hS]
  refine ⟨_, rfl, ?_, ?_⟩
  · rw [getKey_setKey_ne _ _ _ _ (by decide), getKey_setKey_self]
  · rw [getKey_setKey_self]

/-- C1, witness at a concrete event and world. -/
theorem C1_witness :
    ∃ out, (start_build_handler okWorld evC1w).1 = .ok out ∧
      getKey out "CodeBuildJobStatus" = some (.str "IN_PROGRESS") ∧
      getKey out "CodeBuildJobId" = some (.str "proj:1a2b3c4d") :=
  C1_start_build_result okWorld evC1w
    (.str "arn:aws:iam::111111111111:role/x") (.str "proj") (.str "us-east-1")
    (.vlist [⟨"STAGE", "prod", "PLAINTEXT"⟩]) okCreds ⟨⟨"proj:1a2b3c4d"⟩⟩
    rfl rfl rfl rfl rfl rfl rfl rfl rfl

/-! ### C2 -/

/-- C2: for every CHECK_STATUS event whose `roleArn`, `jobId` and
`region` are present and non-empty, if the credential broker succeeds
and the batch-get-builds call reports at least one build, the returned
request carries `CodeBuildJobStatus` equal to exactly the first reported
build status and `CodeBuildJobId` equal to the input `jobId` value
unchanged. -/
theorem C2_check_status_result (w : World) (e : Event)
    (roleArn jobId region : Value)
    (creds : Credentials) (resp : BatchGetBuildsResponse) (b : Build) (bs : List Build)
    (hR : getKey e "roleArn" = some roleArn) (hRt : roleArn.falsy = false)
    (hJ : getKey e "jobId" = some jobId) (hJt : jobId.falsy = false)
    (hG : getKey e "region" = some region) (hGt : region.falsy = false)
    (hA : w.assumeRole roleArn = .ok creds)
    (hB : w.batchGetBuilds (mkClient (sessionOf creds) region) [jobId] = .ok resp)
    (hbs : resp.builds = b :: bs) :
    ∃ out, (check_build_status_handler w e).1 = .ok out ∧
      getKey out "CodeBuildJobStatus" = some (.str b.buildStatus) ∧
      getKey out "CodeBuildJobId" = some jobId := by
  rw [check_build_status_handler_ok w e roleArn jobId region creds resp b bs
    hR hRt hJ hJt hG hGt hA hB hbs]
  refine ⟨_, rfl, ?_, ?_⟩
  · rw [getKey_setKey_ne _ _ _ _ (by decide), getKey_setKey_self]
  · rw [getKey_setKey_self]

/-- C2, witness at a concrete event and world. -/
theorem C2_witness :
    ∃ out, (check_build_status_handler okWorld evC2w).1 = .ok out ∧
      getKey out "CodeBuildJobStatus" = some (.str "SUCCEEDED") ∧
      getKey out "CodeBuildJobId" = some (.str "proj:1a2b3c4d") :=
  C2_check_status_result okWorld evC2w
    (.str "arn:aws:iam::111111111111:role/x") (.str "proj:1a2b3c4d") (.str "us-east-1")
    okCreds ⟨[⟨"SUCCEEDED"⟩]⟩ ⟨"SUCCEEDED"⟩ []
    rfl rfl rfl rfl rfl rfl rfl rfl rfl

/-! ### C3 -/

/-- A field that is present with a truthy value is not missing-or-falsy. -/
theorem not_missingOrFalsy {e : Event} {k : String} {v : Value}
    (hv : getKey e k = some v) (ht : v.falsy = false) : ¬ missingOrFalsy e k := by
  rintro (hn | ⟨v2, hv2, hf2⟩)
  · rw [hv] at hn; exact Option.noConfusion hn
  · rw [hv] at hv2
    cases Option.some.inj hv2
    rw [ht] at hf2
    exact Bool.noConfusion hf2

/-- C3: whenever a required field — `roleArn`, `codeBuildProject` or
`region` for START_BUILD; `roleArn`, `jobId` or `region` for
CHECK_STATUS — is missing from the event or bound to an empty (falsy)
value, the handler raises an error of a validation shape (`KeyError`
from the subscript of the missing field, or the descriptive
`Exception`), and the call trace is empty: in particular the
assume-role credential exchange is never invoked. -/
theorem C3_validation_before_credentials (w : World) (e : Event) :
    (missingOrFalsy e "roleArn" ∨ missingOrFalsy e "codeBuildProject" ∨
        missingOrFalsy e "region" →
      ∃ err, (start_build_handler w e).1 = .error err ∧ err.fromValidation = true ∧
        (start_build_handler w e).2.2 = []) ∧
    (missingOrFalsy e "roleArn" ∨ missingOrFalsy e "jobId" ∨
        missingOrFalsy e "region" →
      ∃ err, (check_build_status_handler w e).1 = .error err ∧ err.fromValidation = true ∧
        (check_build_status_handler w e).2.2 = []) := by
  constructor
  · intro hbad
    rcases start_build_handler_validate w e with ⟨err, h1, h2, h3, _⟩ | hok
    · exact ⟨err, h1, h2, h3⟩
    · obtain ⟨roleArn, project, region, envv, hR, hRt, hP, hPt, hG, hGt, _⟩ := hok
      rcases hbad with hb | hb | hb
      · exact absurd hb (not_missingOrFalsy hR hRt)
      · exact absurd hb (not_missingOrFalsy hP hPt)
      · exact absurd hb (not_missingOrFalsy hG hGt)
  · intro hbad
    rcases check_build_status_handler_validate w e with ⟨err, h1, h2, h3, _⟩ | hok
    · exact ⟨err, h1, h2, h3⟩
    · obtain ⟨roleArn, jobId, region, hR, hRt, hJ, hJt, hG, hGt⟩ := hok
      rcases hbad with hb | hb | hb
      · exact absurd hb (not_missingOrFalsy hR hRt)
      · exact absurd hb (not_missingOrFalsy hJ hJt)
      · exact absurd hb (not_missingOrFalsy hG hGt)

/-- C3, witness: an event with no `roleArn` at all, at a world that
would happily hand out credentials. -/
theorem C3_witness :
    ∃ err, (start_build_handler okWorld evC3w).1 = .error err ∧ err.fromValidation = true ∧
      (start_build_handler okWorld evC3w).2.2 = [] :=
  (C3_validation_before_credentials okWorld evC3w).1 (Or.inl (Or.inl rfl))

/-! ### C4 -/

/-- A START_BUILD event valid except that the `environmentVariables`
key is absent. -/
def evC4 : Event :=
  [("invocationType", .str "START_BUILD"),
   ("roleArn", .str "arn:aws:iam::222222222222:role/deploy"),
   ("codeBuildProject", .str "sample-project"),
   ("region", .str "eu-west-1")]

/-- A START_BUILD event whose `environmentVariables` key is present but
bound to `None` (falsy). -/
def evC4w : Event :=
  [("invocationType", .str "START_BUILD"),
   ("roleArn", .str "arn:aws:iam::222222222222:role/deploy"),
   ("codeBuildProject", .str "sample-project"),
   ("region", .str "eu-west-1"),
   ("environmentVariables", .null)]

/-- C4, counterexample: on an otherwise-valid START_BUILD event whose
`environmentVariables` key is absent, the handler does not succeed with
an empty override list — the subscript in
`if not event["environmentVariables"]` raises `KeyError`, and no
start-build call is ever dispatched (the call trace is empty). -/
theorem C4_counterexample :
    start_build_handler okWorld evC4 =
      (.error (.keyError "environmentVariables"), evC4, []) := rfl

/-- C4, amended: when the `environmentVariables` key is present but
falsy (for example `None` or the empty list), the handler succeeds and
the start-build call receives the empty override list. An absent key
instead raises `KeyError`. -/
theorem C4_env_default (w : World) (e : Event)
    (roleArn project region envv : Value)
    (creds : Credentials) (resp : StartBuildResponse)
    (hR : getKey e "roleArn" = some roleArn) (hRt : roleArn.falsy = false)
    (hP : getKey e "codeBuildProject" = some project) (hPt : project.falsy = false)
    (hG : getKey e "region" = some region) (hGt : region.falsy = false)
    (hE : getKey e "environmentVariables" = some envv)
    (hfalsy : envv.falsy = true)
    (hA : w.assumeRole roleArn = .ok creds)
    (hS : w.startBuild (mkClient (sessionOf creds) region) project (Value.vlist []) = .ok resp) :
    ∃ out, (start_build_handler w e).1 = .ok out ∧
      (start_build_handler w e).2.2 =
        [Call.assumeRole roleArn,
         Call.startBuild (mkClient (sessionOf creds) region) project (Value.vlist [])] := by
  have hpass : envPassed envv = Value.vlist [] := by simp [envPassed, hfalsy]
  rw [← hpass] at hS
  rw [start_build_handler_ok w e roleArn project region envv creds resp
    hR hRt hP hPt hG hGt hE hA hS, hpass]
  exact ⟨_, rfl, rfl⟩

/-- C4, witness at a concrete event with `environmentVariables: None`. -/
theorem C4_witness :
    ∃ out, (start_build_handler okWorld evC4w).1 = .ok out ∧
      (start_build_handler okWorld evC4w).2.2 =
        [Call.assumeRole (.str "arn:aws:iam::222222222222:role/deploy"),
         Call.startBuild (mkClient (sessionOf okCreds) (.str "eu-west-1"))
           (.str "sample-project") (Value.vlist [])] :=
  C4_env_default okWorld evC4w
    (.str "arn:aws:iam::222222222222:role/deploy") (.str "sample-project")
    (.str "eu-west-1") .null okCreds ⟨⟨"proj:1a2b3c4d"⟩⟩
    rfl rfl rfl rfl rfl rfl rfl rfl rfl rfl

/-! ### C5 -/

/-- An event valid for both operations (all five fields populated). -/
def evC5w : Event :=
  [("invocationType", .str "START_BUILD"),
   ("roleArn", .str "arn:aws:iam::333333333333:role/broken"),
   ("codeBuildProject", .str "sample-project"),
   ("region", .str "eu-west-1"),
   ("environmentVariables", .vlist []),
   ("jobId", .str "proj:1a2b3c4d")]

/-- C5: on every request that reaches the credential exchange and on
which the exchange fails, the handler raises the distinguishable
`RuntimeError` whose message names the role identifier (it is the
literal prefix "Could not assume role: " followed by the rendered role
ARN), and the call trace is exactly the one assume-role call: no
start-build or batch-get-builds call is ever attempted. -/
theorem C5_credential_failure (w : World) (e : Event) (roleArn : Value)
    (hA : w.assumeRole roleArn = .error ()) :
    (∀ project region envv,
      getKey e "roleArn" = some roleArn → roleArn.falsy = false →
      getKey e "codeBuildProject" = some project → project.falsy = false →
      getKey e "region" = some region → region.falsy = false →
      getKey e "environmentVariables" = some envv →
      (start_build_handler w e).1 =
        .error (.runtimeError ("Could not assume role: " ++ roleArn.pyStr)) ∧
      (start_build_handler w e).2.2 = [Call.assumeRole roleArn]) ∧
    (∀ jobId region,
      getKey e "roleArn" = some roleArn → roleArn.falsy = false →
      getKey e "jobId" = some jobId → jobId.falsy = false →
      getKey e "region" = some region → region.falsy = false →
      (check_build_status_handler w e).1 =
        .error (.runtimeError ("Could not assume role: " ++ roleArn.pyStr)) ∧
      (check_build_status_handler w e).2.2 = [Call.assumeRole roleArn]) := by
  constructor
  · intro project region envv hR hRt hP hPt hG hGt hE
    rw [start_build_handler_assume_fail w e roleArn project region envv
      hR hRt hP hPt hG hGt hE hA]
    exact ⟨rfl, rfl⟩
  · intro jobId region hR hRt hJ hJt hG hGt
    rw [check_build_status_handler_assume_fail w e roleArn jobId region
      hR hRt hJ hJt hG hGt hA]
    exact ⟨rfl, rfl⟩

/-- C5, witness: both operations at a concrete event under a world
whose credential exchange fails. -/
theorem C5_witness :
    ((start_build_handler stsDownWorld evC5w).1 =
        .error (.runtimeError "Could not assume role: arn:aws:iam::333333333333:role/broken") ∧
      (start_build_handler stsDownWorld evC5w).2.2 =
        [Call.assumeRole (.str "arn:aws:iam::333333333333:role/broken")]) ∧
    ((check_build_status_handler stsDownWorld evC5w).1 =
        .error (.runtimeError "Could not assume role: arn:aws:iam::333333333333:role/broken") ∧
      (check_build_status_handler stsDownWorld evC5w).2.2 =
        [Call.assumeRole (.str "arn:aws:iam::333333333333:role/broken")]) :=
  ⟨(C5_credential_failure stsDownWorld evC5w
      (.str "arn:aws:iam::333333333333:role/broken") rfl).1
      (.str "sample-project") (.str "eu-west-1") (.vlist [])
      rfl rfl rfl rfl rfl rfl rfl,
   (C5_credential_failure stsDownWorld evC5w
      (.str "arn:aws:iam::333333333333:role/broken") rfl).2
      (.str "proj:1a2b3c4d") (.str "eu-west-1")
      rfl rfl rfl rfl rfl rfl⟩

/-! ### C6 -/

/-- An event with no `invocationType` key. -/
def evC6 : Event :=
  [("roleArn", .str "arn:aws:iam::111111111111:role/x")]

/-- An event whose `invocationType` is an unrecognized operation kind. -/
def evC6w : Event :=
  [("invocationType", .str "DELETE_BUILD"),
   ("roleArn", .str "arn:aws:iam::111111111111:role/x")]

/-- C6, counterexample: on an event with no `invocationType` key the
entry point does not silently return no result — the subscript
`event["invocationType"]` raises `KeyError`. -/
theorem C6_counterexample :
    lambda_handler okWorld evC6 =
      (.error (.keyError "invocationType"), evC6, []) := rfl

/-- C6, amended: when `invocationType` is present but is neither
"START_BUILD" nor "CHECK_STATUS", the entry point falls off the end of
the function and returns `None`, raising no error and making no
outbound call; when the key is missing it raises `KeyError` instead. -/
theorem C6_unknown_invocation (w : World) (e : Event) (v : Value)
    (hv : getKey e "invocationType" = some v)
    (h1 : v ≠ .str "START_BUILD") (h2 : v ≠ .str "CHECK_STATUS") :
    lambda_handler w e = (.ok none, e, []) := by
  simp [lambda_handler, hv, h1, h2]

/-- C6, witness: a concrete unrecognized operation kind. -/
theorem C6_witness : lambda_handler okWorld evC6w = (.ok none, evC6w, []) :=
  C6_unknown_invocation okWorld evC6w (.str "DELETE_BUILD") rfl
    (by decide) (by decide)

/-! ### C7 -/

/-- The CodeBuild client `emptyBuildsWorld` ends up constructing. -/
def clC7 : Client := mkClient (sessionOf okCreds) (.str "eu-west-1")

/-- C7: when `batch_get_builds` succeeds but reports zero builds for
the supplied job id, `check_codebuild_status` hits the subscript
`response["builds"][0]` on an empty list and fails with the
out-of-range `IndexError`; the batch-get-builds call was made, so the
error branch is reachable only past a successful service call. -/
theorem C7_empty_builds (w : World) (client : Client) (jobId : Value)
    (resp : BatchGetBuildsResponse)
    (hB : w.batchGetBuilds client [jobId] = .ok resp)
    (hempty : resp.builds = []) :
    check_codebuild_status w client jobId =
      (.error .indexError, [Call.batchGetBuilds client [jobId]]) := by
  simp [check_codebuild_status, hB, hempty]

/-- C7, witness at a concrete client and job id. -/
theorem C7_witness :
    check_codebuild_status emptyBuildsWorld clC7 (.str "proj:1a2b3c4d") =
      (.error .indexError, [Call.batchGetBuilds clC7 [.str "proj:1a2b3c4d"]]) :=
  C7_empty_builds emptyBuildsWorld clC7 (.str "proj:1a2b3c4d") ⟨[]⟩ rfl rfl

/-! ### C8 -/

/-- A valid START_BUILD event whose `environmentVariables` is `None`. -/
def evC8 : Event :=
  [("invocationType", .str "START_BUILD"),
   ("roleArn", .str "arn:aws:iam::444444444444:role/y"),
   ("codeBuildProject", .str "frame-project"),
   ("region", .str "us-west-2"),
   ("environmentVariables", .null)]

/-- A valid START_BUILD event with a truthy override list and an extra
pass-through field. -/
def evC8w : Event :=
  [("invocationType", .str "START_BUILD"),
   ("roleArn", .str "arn:aws:iam::444444444444:role/y"),
   ("codeBuildProject", .str "frame-project"),
   ("region", .str "us-west-2"),
   ("environmentVariables", .vlist [⟨"COLOR", "blue", "PLAINTEXT"⟩]),
   ("extraField", .str "untouched")]

/-- C8, counterexample: a successfully processed START_BUILD request is
not always the input augmented with only the two result fields — with
`environmentVariables: None` the handler succeeds but the output binds
`environmentVariables` to the empty list, not to the input value. -/
theorem C8_counterexample :
    ∃ out, (start_build_handler okWorld evC8).1 = .ok out ∧
      getKey evC8 "environmentVariables" = some Value.null ∧
      getKey out "environmentVariables" = some (Value.vlist []) :=
  ⟨_, rfl, rfl, rfl⟩

/-- C8, amended: a successfully processed request equals the input
augmented with exactly `CodeBuildJobStatus` and `CodeBuildJobId` —
every other field keeps its input value — as long as, on START_BUILD,
the `environmentVariables` value was truthy; a falsy one is normalized
to the empty list in the output. CHECK_STATUS carries no exception. -/
theorem C8_output_frame (w : World) (e : Event) :
    (∀ roleArn project region envv creds resp,
      getKey e "roleArn" = some roleArn → roleArn.falsy = false →
      getKey e "codeBuildProject" = some project → project.falsy = false →
      getKey e "region" = some region → region.falsy = false →
      getKey e "environmentVariables" = some envv → envv.falsy = false →
      w.assumeRole roleArn = .ok creds →
      w.startBuild (mkClient (sessionOf creds) region) project (envPassed envv) = .ok resp →
      ∃ out, (start_build_handler w e).1 = .ok out ∧
        getKey out "CodeBuildJobStatus" = some (.str "IN_PROGRESS") ∧
        getKey out "CodeBuildJobId" = some (.str resp.build.id) ∧
        ∀ k, k ≠ "CodeBuildJobStatus" → k ≠ "CodeBuildJobId" →
          getKey out k = getKey e k) ∧
    (∀ roleArn jobId region creds resp b bs,
      getKey e "roleArn" = some roleArn → roleArn.falsy = false →
      getKey e "jobId" = some jobId → jobId.falsy = false →
      getKey e "region" = some region → region.falsy = false →
      w.assumeRole roleArn = .ok creds →
      w.batchGetBuilds (mkClient (sessionOf creds) region) [jobId] = .ok resp →
      resp.builds = b :: bs →
      ∃ out, (check_build_status_handler w e).1 = .ok out ∧
        getKey out "CodeBuildJobStatus" = some (.str b.buildStatus) ∧
        getKey out "CodeBuildJobId" = some jobId ∧
        ∀ k, k ≠ "CodeBuildJobStatus" → k ≠ "CodeBuildJobId" →
          getKey out k = getKey e k) := by
  constructor
  · intro roleArn project region envv creds resp hR hRt hP hPt hG hGt hE hEt hA hS
    have hnorm : normalizeEnv e envv = e := by
      simp [normalizeEnv, hEt]
    rw [start_build_handler_ok w e roleArn project region envv creds resp
      hR hRt hP hPt hG hGt hE hA hS, hnorm]
    refine ⟨_, rfl, ?_, ?_, ?_⟩
    · rw [getKey_setKey_ne _ _ _ _ (by decide), getKey_setKey_self]
    · rw [getKey_setKey_self]
    · intro k hk1 hk2
      rw [getKey_setKey_ne _ _ _ _ hk2, getKey_setKey_ne _ _ _ _ hk1]
  · intro roleArn jobId region creds resp b bs hR hRt hJ hJt hG hGt hA hB hbs
    rw [check_build_status_handler_ok w e roleArn jobId region creds resp b bs
      hR hRt hJ hJt hG hGt hA hB hbs]
    refine ⟨_, rfl, ?_, ?_, ?_⟩
    · rw [getKey_setKey_ne _ _ _ _ (by decide), getKey_setKey_self]
    · rw [getKey_setKey_self]
    · intro k hk1 hk2
      rw [getKey_setKey_ne _ _ _ _ hk2, getKey_setKey_ne _ _ _ _ hk1]

/-- C8, witness at a concrete event with a truthy override list. -/
theorem C8_witness :
    ∃ out, (start_build_handler okWorld evC8w).1 = .ok out ∧
      getKey out "CodeBuildJobStatus" = some (.str "IN_PROGRESS") ∧
      getKey out "CodeBuildJobId" = some (.str "proj:1a2b3c4d") ∧
      ∀ k, k ≠ "CodeBuildJobStatus" → k ≠ "CodeBuildJobId" →
        getKey out k = getKey evC8w k :=
  (C8_output_frame okWorld evC8w).1
    (.str "arn:aws:iam::444444444444:role/y") (.str "frame-project")
    (.str "us-west-2") (.vlist [⟨"COLOR", "blue", "PLAINTEXT"⟩])
    okCreds ⟨⟨"proj:1a2b3c4d"⟩⟩
    rfl rfl rfl rfl rfl rfl rfl rfl rfl rfl

/-! ### C9 -/

/-- An event valid for both operations, used for the failing runs. -/
def evC9 : Event :=
  [("invocationType", .str "START_BUILD"),
   ("roleArn", .str "arn:aws:iam::555555555555:role/z"),
   ("codeBuildProject", .str "sample-project"),
   ("region", .str "ap-southeast-2"),
   ("environmentVariables", .vlist [⟨"STAGE", "dev", "PLAINTEXT"⟩]),
   ("jobId", .str "proj:9z8y7x6w")]

/-- C9: whenever a handler fails — at validation, credential exchange,
build start or status fetch — the event object carries neither result
field: both `CodeBuildJobStatus` and `CodeBuildJobId` read in the
final event state exactly as in the input (in particular they were not
added). The result fields are written only after every delegated call
has succeeded. -/
theorem C9_no_result_fields_on_error (w : World) (e : Event) (errS errC : Err) :
    ((start_build_handler w e).1 = .error errS →
      getKey (start_build_handler w e).2.1 "CodeBuildJobStatus"
        = getKey e "CodeBuildJobStatus" ∧
      getKey (start_build_handler w e).2.1 "CodeBuildJobId"
        = getKey e "CodeBuildJobId") ∧
    ((check_build_status_handler w e).1 = .error errC →
      getKey (check_build_status_handler w e).2.1 "CodeBuildJobStatus"
        = getKey e "CodeBuildJobStatus" ∧
      getKey (check_build_status_handler w e).2.1 "CodeBuildJobId"
        = getKey e "CodeBuildJobId") := by
  constructor
  · intro h
    rcases start_build_handler_error_event w e errS h with h1 | h1 <;> rw [h1]
    · exact ⟨rfl, rfl⟩
    · exact ⟨getKey_setKey_ne _ _ _ _ (by decide), getKey_setKey_ne _ _ _ _ (by decide)⟩
  · intro h
    rw [check_build_status_handler_error_event w e errC h]
    exact ⟨rfl, rfl⟩

/-- C9, witness: both handlers failing at the credential exchange on a
concrete event. -/
theorem C9_witness :
    (getKey (start_build_handler stsDownWorld evC9).2.1 "CodeBuildJobStatus"
        = getKey evC9 "CodeBuildJobStatus" ∧
      getKey (start_build_handler stsDownWorld evC9).2.1 "CodeBuildJobId"
        = getKey evC9 "CodeBuildJobId") ∧
    (getKey (check_build_status_handler stsDownWorld evC9).2.1 "CodeBuildJobStatus"
        = getKey evC9 "CodeBuildJobStatus" ∧
      getKey (check_build_status_handler stsDownWorld evC9).2.1 "CodeBuildJobId"
        = getKey evC9 "CodeBuildJobId") :=
  ⟨(C9_no_result_fields_on_error stsDownWorld evC9
      (.runtimeError "Could not assume role: arn:aws:iam::555555555555:role/z")
      (.runtimeError "Could not assume role: arn:aws:iam::555555555555:role/z")).1 rfl,
   (C9_no_result_fields_on_error stsDownWorld evC9
      (.runtimeError "Could not assume role: arn:aws:iam::555555555555:role/z")
      (.runtimeError "Could not assume role: arn:aws:iam::555555555555:role/z")).2 rfl⟩

/-! ### C10 -/

/-- An event whose `roleArn` is non-empty while `codeBuildProject` and
`region` are both empty strings. -/
def evC10w : Event :=
  [("invocationType", .str "START_BUILD"),
   ("roleArn", .str "arn:aws:iam::111111111111:role/x"),
   ("codeBuildProject", .str ""),
   ("region", .str "")]

/-- C10: required-field validation is ordered. In `start_build_handler`
an empty `roleArn` is reported first, then an empty `codeBuildProject`,
then an empty `region`; in `check_build_status_handler` an empty
`roleArn`, then `jobId`, then `region`. With several empty fields the
raised `Exception` names the first empty field in that order. -/
theorem C10_validation_order (w : World) (e : Event) :
    (∀ r, getKey e "roleArn" = some r → r.falsy = true →
      (start_build_handler w e).1 =
        .error (.exn "Event did not include the roleArn")) ∧
    (∀ r p, getKey e "roleArn" = some r → r.falsy = false →
      getKey e "codeBuildProject" = some p → p.falsy = true →
      (start_build_handler w e).1 =
        .error (.exn "Event did not include the target CodeBuild Project")) ∧
    (∀ r p g, getKey e "roleArn" = some r → r.falsy = false →
      getKey e "codeBuildProject" = some p → p.falsy = false →
      getKey e "region" = some g → g.falsy = true →
      (start_build_handler w e).1 =
        .error (.exn "Event did not include the region for the target CodeBuild Project")) ∧
    (∀ r, getKey e "roleArn" = some r → r.falsy = true →
      (check_build_status_handler w e).1 =
        .error (.exn "Event did not include the roleArn")) ∧
    (∀ r j, getKey e "roleArn" = some r → r.falsy = false →
      getKey e "jobId" = some j → j.falsy = true →
      (check_build_status_handler w e).1 =
        .error (.exn "Event did not include the CodeBuild ID to check")) ∧
    (∀ r j g, getKey e "roleArn" = some r → r.falsy = false →
      getKey e "jobId" = some j → j.falsy = false →
      getKey e "region" = some g → g.falsy = true →
      (check_build_status_handler w e).1 =
        .error (.exn "Event did not include the region for the target CodeBuild ID")) := by
  refine ⟨?_, ?_, ?_, ?_, ?_, ?_⟩
  · intro r hR hRf
    simp [start_build_handler, hR, hRf]
  · intro r p hR hRt hP hPf
    simp [start_build_handler, hR, hRt, hP, hPf]
  · intro r p g hR hRt hP hPt hG hGf
    simp [start_build_handler, hR, hRt, hP, hPt, hG, hGf]
  · intro r hR hRf
    simp [check_build_status_handler, hR, hRf]
  · intro r j hR hRt hJ hJf
    simp [check_build_status_handler, hR, hRt, hJ, hJf]
  · intro r j g hR hRt hJ hJt hG hGf
    simp [check_build_status_handler, hR, hRt, hJ, hJt, hG, hGf]

/-- C10, witness: with both `codeBuildProject` and `region` empty the
raised error names `codeBuildProject`, the first of the two in the
validation order. -/
theorem C10_witness :
    (start_build_handler okWorld evC10w).1 =
      .error (.exn "Event did not include the target CodeBuild Project") :=
  (C10_validation_order okWorld evC10w).2.1
    (.str "arn:aws:iam::111111111111:role/x") (.str "") rfl rfl rfl rfl

end CodeBuildProxy
